import Mathlib

set_option maxRecDepth 8192

/-
Shallow embedding of the error-classification and diagnostic-logging layer
of sh-over-ws-actuator (src/error.rs) and of the Direction enum (src/data.rs).

Conventions of the embedding:
* `anyhow::Error` is modelled by `AnyErr`: the outermost display message plus
  the chain of causes (each cause is the display message of one wrapped error,
  outermost first).  `Result<T, anyhow::Error>` is `RResult T := Except AnyErr T`.
* A panic is modelled by the `Except.error` branch of `Except String T`: the
  carried string is the panic (termination) message.
* Side effects (invocations of a diagnostic sink) are modelled by returning the
  trace of emissions next to the pass-through value: `print_error` returns the
  list of arguments the sink closure is called with, in call order, and the
  convenience wrappers tag each emission with its sink (`OutEvent`).
* `#[track_caller]` is modelled by passing the caller's `Location` explicitly.
-/

namespace ShOverWsActuator

/-- Model of an `anyhow::Error`: the outermost (display) message together with
the chain of causes, outermost first.  `context` pushes a new outermost
message. -/
structure AnyErr where
  msg : String
  causes : List String
deriving DecidableEq

/-- `anyhow`'s `Context::context` on an error value: the new message becomes the
outermost one and the previous error becomes its source. -/
def context (c : String) (e : AnyErr) : AnyErr :=
  ⟨c, e.msg :: e.causes⟩

/-- Concatenation of a list of strings, modelling sequential writes to a
formatter. -/
def strConcat (l : List String) : String :=
  l.foldr (· ++ ·) ""

/-- Split a character list at every newline, mirroring Rust's
`str::split('\n')` used by `anyhow`'s `Indented` writer (never returns `[]`,
and an empty input yields one empty line). -/
def splitNl : List Char → List (List Char)
  | [] => [[]]
  | c :: cs =>
    if c = '\n' then [] :: splitNl cs
    else
      match splitNl cs with
      | [] => [[c]]
      | l :: ls => (c :: l) :: ls

/-- String-level wrapper of `splitNl`. -/
def splitNlStr (s : String) : List String :=
  (splitNl s.data).map String.mk

/-- Rust's `format!("{: >5}", n)`: the decimal rendering of `n`, right-aligned
to width 5 with spaces. -/
def padNum (n : Nat) : String :=
  let s := toString n
  String.mk (List.replicate (5 - s.length) ' ') ++ s

/-- The indentation written by `anyhow`'s `Indented` writer before the first
line of a cause: `"{: >5}: "` for a numbered cause, four spaces otherwise. -/
def headIndent : Option Nat → String
  | some n => padNum n ++ ": "
  | none => "    "

/-- The indentation written before continuation lines of a multi-line cause:
seven spaces for a numbered cause, four spaces otherwise. -/
def tailIndent : Option Nat → String
  | some _ => "       "
  | none => "    "

/-- `anyhow`'s `Indented` writer applied to one cause message: the first line
is preceded by `headIndent`, each further line by a newline and `tailIndent`. -/
def indented (number : Option Nat) (s : String) : String :=
  match splitNlStr s with
  | [] => ""
  | l :: ls => headIndent number ++ l ++ strConcat (ls.map fun ln => "\n" ++ tailIndent number ++ ln)

/-- The cause section of `anyhow`'s `Debug` rendering: the enumerate loop of
`impl Debug for anyhow::Error`, writing a newline then the indented cause for
each element, numbering from `n` when `multiple` is set. -/
def renderCausesFrom (multiple : Bool) (n : Nat) : List String → String
  | [] => ""
  | c :: cs =>
    "\n" ++ indented (if multiple then some n else none) c ++ renderCausesFrom multiple (n + 1) cs

/-- `format!("{:?}", e)` for an `anyhow::Error`: the outermost message; then,
if there are causes, a blank line, `Caused by:`, and the causes, numbered
exactly when there are at least two of them. -/
def debugRender (e : AnyErr) : String :=
  match e.causes with
  | [] => e.msg
  | c :: cs => e.msg ++ "\n\nCaused by:" ++ renderCausesFrom (!cs.isEmpty) 0 (c :: cs)

/-- `anyhow::Result<T>`: success value or `anyhow` error. -/
abbrev RResult (T : Type) := Except AnyErr T

/-- `Context::context` on a `Result`: attaches the message to the error of an
`Err` variant and leaves an `Ok` variant unchanged. -/
def contextRes {T : Type} (c : String) : RResult T → RResult T
  | .ok v => .ok v
  | .error e => .error (context c e)

/-- `Result::expect(msg)`: returns the success value, or panics with the
message `"{msg}: {err:?}"`.  The panic is the `Except.error` branch. -/
def expect {T : Type} (msg : String) : RResult T → Except String T
  | .ok v => .ok v
  | .error e => .error (msg ++ ": " ++ debugRender e)

/-- `FatalError::fatal` (src/error.rs:54-61): returns the `Ok` value unchanged;
on `Err`, attaches the context `"a fatal error occured"` (spelling as in the
source) and panics through `expect("Program terminates")`. -/
def fatal {T : Type} (r : RResult T) : Except String T :=
  match r with
  | .ok val => .ok val
  | .error _ => expect "Program terminates" (contextRes "a fatal error occured" r)

/-- `log::Level` of the `log` crate. -/
inductive LogLevel
  | Error | Warn | Info | Debug | Trace
deriving DecidableEq

/-- `std::panic::Location`: source file and line of a call site. -/
structure Location where
  file : String
  line : Nat
deriving DecidableEq

/-- The log record built manually inside `to_log` (src/error.rs:107-114):
level, message, file, line, and optional module path. -/
structure LogRecord where
  level : LogLevel
  message : String
  file : String
  line : Nat
  module_path : Option String
deriving DecidableEq

/-- One emission to a diagnostic sink: a line printed to stdout, a line printed
to stderr, or a record given to the process-wide logger. -/
inductive OutEvent
  | stdout (msg : String)
  | stderr (msg : String)
  | logged (rec : LogRecord)
deriving DecidableEq

/-- `LoggableError::print_error` (src/error.rs:131-136): if the result is an
`Err`, the sink closure is invoked once with `format!("{:?}", err)`; the result
itself is returned unchanged.  The second component is the trace of arguments
passed to the sink closure, in call order. -/
def print_error {T : Type} (r : RResult T) : RResult T × List String :=
  match r with
  | .error err => (r, [debugRender err])
  | .ok _ => (r, [])

/-- `LoggableError::to_log` (src/error.rs:100-117): captures the caller's
location, then forwards through `print_error` with a sink that logs a record
with level `Error`, the message, the caller's file and line, and no module
path. -/
def to_log {T : Type} (caller : Location) (r : RResult T) : RResult T × List OutEvent :=
  let (r2, calls) := print_error r
  (r2, calls.map fun msg => .logged ⟨.Error, msg, caller.file, caller.line, none⟩)

/-- `LoggableError::to_stderr` (src/error.rs:120-122): `print_error` with the
sink `|msg| eprintln!("{}", msg)`. -/
def to_stderr {T : Type} (r : RResult T) : RResult T × List OutEvent :=
  let (r2, calls) := print_error r
  (r2, calls.map fun msg => .stderr msg)

/-- `LoggableError::to_stdout` (src/error.rs:125-127): `print_error` with the
sink `|msg| println!("{}", msg)`. -/
def to_stdout {T : Type} (r : RResult T) : RResult T × List OutEvent :=
  let (r2, calls) := print_error r
  (r2, calls.map fun msg => .stdout msg)

/-- `Result::is_err`. -/
def is_err {T : Type} : RResult T → Bool
  | .error _ => true
  | .ok _ => false

/-- `FatalError::non_fatal` (src/error.rs:48-52): if the result is an `Err`,
attaches the context `"a non-fatal error occured"` (spelling as in the source)
and sends it through `to_log`; the pass-through value is discarded
(`discard_result`), so only the trace of emissions remains. -/
def non_fatal {T : Type} (caller : Location) (r : RResult T) : List OutEvent :=
  if is_err r then (to_log caller (contextRes "a non-fatal error occured" r)).snd
  else []

/-- Sequencing of two pass-through transforms: the second runs on the value
returned by the first, and the emission traces are concatenated in call
order. -/
def andThenOut {T : Type} (x : RResult T × List OutEvent)
    (f : RResult T → RResult T × List OutEvent) : RResult T × List OutEvent :=
  let (r2, ev2) := f x.fst
  (r2, x.snd ++ ev2)

/-- `std::sync::PoisonError<U>`: carries the guard/value it poisons. -/
structure PoisonError (U : Type) where
  poisoned : U

/-- `format!("{:#?}", e)` for `e : PoisonError<U>`.  `std`'s
`impl<T> Debug for PoisonError<T>` is `f.debug_struct("PoisonError")
.finish_non_exhaustive()` (it has no `T: Debug` bound and never shows the inner
value); with no fields, `finish_non_exhaustive` writes `PoisonError { .. }` on
a single line even under the alternate `{:#?}` flag (its pretty-mode branch
exists only when fields were recorded). -/
def poisonErrorDebugAlt {U : Type} (_e : PoisonError U) : String :=
  "PoisonError \x7b .. \x7d"

/-- `ToAnyhow::to_anyhow` (src/error.rs:9-20): passes `Ok` through unchanged;
on a poisoning failure builds the anyhow error
`anyhow!("cannot acquire poisoned lock for {e:#?}")`. -/
def to_anyhow {U : Type} : Except (PoisonError U) U → RResult U
  | .ok val => .ok val
  | .error e => .error ⟨"cannot acquire poisoned lock for " ++ poisonErrorDebugAlt e, []⟩

/-- `Direction` (src/data.rs:6-11). -/
inductive Direction
  | Left | Right | Up | Down
deriving DecidableEq

/-- `Direction::invert` (src/data.rs:14-21). -/
def Direction.invert : Direction → Direction
  | .Left => .Right
  | .Down => .Up
  | .Up => .Down
  | .Right => .Left

/-- `Direction::is_horizontal` (src/data.rs:23-25). -/
def Direction.is_horizontal : Direction → Bool
  | .Left => true
  | .Right => true
  | _ => false

/-- `Direction::is_vertical` (src/data.rs:27-29). -/
def Direction.is_vertical : Direction → Bool
  | .Down => true
  | .Up => true
  | _ => false

/-- `needle` occurs as contiguous text inside `hay`. -/
def strContains (hay needle : String) : Prop :=
  needle.data <:+: hay.data

instance (hay needle : String) : Decidable (strContains hay needle) :=
  inferInstanceAs (Decidable (needle.data <:+: hay.data))

/-- Some line of `msg` (split at newlines) ends in `pat`. -/
def lineEndsIn (msg pat : String) : Prop :=
  ∃ ln ∈ splitNlStr msg, pat.data <:+ ln.data

instance (msg pat : String) : Decidable (lineEndsIn msg pat) :=
  inferInstanceAs (Decidable (∃ ln ∈ splitNlStr msg, pat.data <:+ ln.data))

theorem strData_append (a b : String) : (a ++ b).data = a.data ++ b.data := rfl

theorem strContains_self (s : String) : strContains s s :=
  ⟨[], [], by simp⟩

theorem strAppend_empty (s : String) : s ++ "" = s :=
  String.ext (by simp [strData_append])

theorem strContains_appendLeft {y s : String} (x : String) (h : strContains y s) :
    strContains (x ++ y) s := by
  obtain ⟨a, b, hab⟩ := h
  exact ⟨x.data ++ a, b, by rw [strData_append, ← hab]; simp [List.append_assoc]⟩

theorem strContains_appendRight {x s : String} (y : String) (h : strContains x s) :
    strContains (x ++ y) s := by
  obtain ⟨a, b, hab⟩ := h
  refine ⟨a, b ++ y.data, ?_⟩
  rw [strData_append, ← hab]
  simp [List.append_assoc]

theorem splitNl_noNl : ∀ l : List Char, '\n' ∉ l → splitNl l = [l] := by
  intro l
  induction l with
  | nil => intro _; rfl
  | cons c cs ih =>
    intro h
    have hc : ¬ c = '\n' := fun he => h (he ▸ List.mem_cons_self c cs)
    have hcs : '\n' ∉ cs := fun hm => h (List.mem_cons_of_mem c hm)
    simp [splitNl, hc, ih hcs]

theorem indented_single (number : Option Nat) (s : String) (hs : '\n' ∉ s.data) :
    indented number s = headIndent number ++ s := by
  unfold indented splitNlStr
  rw [splitNl_noNl s.data hs]
  show headIndent number ++ s ++ strConcat [] = headIndent number ++ s
  exact strAppend_empty _

theorem renderCausesFrom_contains (multiple : Bool) {s : String} (hs : '\n' ∉ s.data) :
    ∀ (n : Nat) (l : List String), s ∈ l → strContains (renderCausesFrom multiple n l) s := by
  intro n l
  induction l generalizing n with
  | nil => intro h; exact absurd h (List.not_mem_nil s)
  | cons c cs ih =>
    intro h
    rcases List.mem_cons.mp h with rfl | hmem
    · show strContains
        ("\n" ++ indented (if multiple then some n else none) s ++ renderCausesFrom multiple (n + 1) cs) s
      refine strContains_appendRight _ ?_
      rw [indented_single _ s hs]
      exact strContains_appendLeft _ (strContains_appendLeft _ (strContains_self s))
    · show strContains
        ("\n" ++ indented (if multiple then some n else none) c ++ renderCausesFrom multiple (n + 1) cs) s
      exact strContains_appendLeft _ (ih (n + 1) hmem)

theorem debugRender_context (c : String) (e : AnyErr) :
    debugRender (context c e) =
      c ++ "\n\nCaused by:" ++ renderCausesFrom (!(e.causes).isEmpty) 0 (e.msg :: e.causes) := rfl

/-- Claim C10: `Direction.invert` is an involution and preserves the axis of
its argument: `is_horizontal` and `is_vertical` are unchanged by `invert`. -/
theorem direction_invert_involution :
    ∀ d : Direction, d.invert.invert = d ∧
      d.invert.is_horizontal = d.is_horizontal ∧
      d.invert.is_vertical = d.is_vertical := by
  intro d
  cases d <;> exact ⟨rfl, rfl, rfl⟩

/-- Claim C3: `print_error` is a pass-through tap: on `Ok v` the sink is never
invoked (empty call trace) and `Ok v` is returned unchanged; on a failure the
sink is invoked exactly once, with the debug rendering of the failure, and the
original failure is returned unchanged. -/
theorem print_error_tap (T : Type) (v : T) (e : AnyErr) :
    print_error (Except.ok v : RResult T) = (Except.ok v, ([] : List String)) ∧
    print_error (Except.error e : RResult T) = (Except.error e, [debugRender e]) :=
  ⟨rfl, rfl⟩

/-- Claim C5: on a success value, `non_fatal` discards the value and emits
nothing, and `fatal` returns exactly the original value with no output. -/
theorem dispositions_on_success (T : Type) (v : T) (caller : Location) :
    non_fatal caller (Except.ok v : RResult T) = [] ∧
    fatal (Except.ok v : RResult T) = Except.ok v :=
  ⟨rfl, rfl⟩

/-- Claim C6: `to_stderr(to_stdout(r))` returns `r` unchanged; on a failure it
emits the formatted message once to stdout then once to stderr, in call order;
on a success it emits nothing. -/
theorem to_stdout_then_to_stderr (T : Type) (r : RResult T) :
    andThenOut (to_stdout r) to_stderr =
      (r, match r with
          | Except.error e => [OutEvent.stdout (debugRender e), OutEvent.stderr (debugRender e)]
          | Except.ok _ => ([] : List OutEvent)) := by
  cases r <;> rfl

/-- Claim C7: on a failure, `to_log` emits exactly one log record, with level
`Error`, message the debug rendering of the failure, the immediate caller's
file and line, and an absent module path. -/
theorem to_log_record_shape (T : Type) (e : AnyErr) (caller : Location) :
    to_log caller (Except.error e : RResult T) =
      (Except.error e,
        [OutEvent.logged ⟨LogLevel.Error, debugRender e, caller.file, caller.line, none⟩]) :=
  rfl

/-- Claim C9: on a failure, the panic message produced by `fatal` begins with
the literal text `Program terminates` (from the internal `expect` call), before
the rendered error chain. -/
theorem fatal_panic_message_head (T : Type) (e : AnyErr) :
    fatal (Except.error e : RResult T) =
      Except.error
        ("Program terminates" ++ ": " ++ debugRender (context "a fatal error occured" e)) ∧
    ("Program terminates").data <+:
      ("Program terminates" ++ ": " ++ debugRender (context "a fatal error occured" e)).data := by
  refine ⟨rfl, ?_⟩
  exact ⟨(": " ++ debugRender (context "a fatal error occured" e)).data,
    by simp [strData_append, List.append_assoc]⟩

/-- Counterexample to claim C1 as stated: the termination message spells
`a fatal error occured` (one `r`), so it does not contain the claimed string
`a fatal error occurred`; and for a failure that already carries a context
chain, the re-rendered (numbered) chain does not contain the original
failure's rendered text verbatim. -/
theorem fatal_claimed_message_cex :
    (fatal (Except.error ⟨"disk full", []⟩ : RResult Nat) =
        Except.error "Program terminates: a fatal error occured\n\nCaused by:\n    disk full" ∧
      ¬ strContains "Program terminates: a fatal error occured\n\nCaused by:\n    disk full"
          "a fatal error occurred") ∧
    (fatal (Except.error ⟨"outer", ["inner"]⟩ : RResult Nat) =
        Except.error
          "Program terminates: a fatal error occured\n\nCaused by:\n    0: outer\n    1: inner" ∧
      ¬ strContains
          "Program terminates: a fatal error occured\n\nCaused by:\n    0: outer\n    1: inner"
          (debugRender ⟨"outer", ["inner"]⟩)) :=
  ⟨⟨rfl, by decide⟩, ⟨rfl, by decide⟩⟩

/-- Claim C1 (amended): for every failure-valued result, `fatal` never returns
normally (the outcome is a panic), and the termination message contains the
string `a fatal error occured` (as spelled in the source); moreover, when the
messages of the original failure's chain are single-line, the termination
message contains each of those messages (the chain is re-rendered with
indented, possibly numbered causes, so the original failure's full rendered
text need not appear verbatim). -/
theorem fatal_err_terminates_amended (T : Type) (e : AnyErr) :
    ∃ m : String, fatal (Except.error e : RResult T) = Except.error m ∧
      strContains m "a fatal error occured" ∧
      ∀ s ∈ e.msg :: e.causes, '\n' ∉ s.data → strContains m s := by
  refine ⟨"Program terminates" ++ ": " ++ debugRender (context "a fatal error occured" e),
    rfl, ?_, ?_⟩
  · rw [debugRender_context]
    exact strContains_appendLeft _
      (strContains_appendRight _ (strContains_appendRight _ (strContains_self _)))
  · intro s hsmem hline
    rw [debugRender_context]
    refine strContains_appendLeft _ (strContains_appendLeft _ ?_)
    exact renderCausesFrom_contains _ hline 0 _ hsmem

/-- Witness for the amended claim C1 at the failure `Err("disk full")`. -/
theorem fatal_err_terminates_amended_witness :
    ∃ m : String, fatal (Except.error ⟨"disk full", []⟩ : RResult Nat) = Except.error m ∧
      strContains m "a fatal error occured" ∧
      ∀ s ∈ ("disk full" :: ([] : List String)), '\n' ∉ s.data → strContains m s :=
  fatal_err_terminates_amended Nat ⟨"disk full", []⟩

/-- Counterexample to claim C2 as stated: the single emission spells
`a non-fatal error occured` (one `r`), so its text does not contain the
claimed string `a non-fatal error occurred`. -/
theorem non_fatal_claimed_spelling_cex :
    non_fatal ⟨"main.rs", 10⟩ (Except.error ⟨"disk full", []⟩ : RResult Nat) =
      [OutEvent.logged ⟨LogLevel.Error,
        "a non-fatal error occured\n\nCaused by:\n    disk full", "main.rs", 10, none⟩] ∧
    ¬ strContains "a non-fatal error occured\n\nCaused by:\n    disk full"
        "a non-fatal error occurred" :=
  ⟨by decide, by decide⟩

/-- Claim C2 (amended): for every failure-valued result, `non_fatal` returns
normally and produces exactly one diagnostic emission, whose text contains
`a non-fatal error occured` (as spelled in the source). -/
theorem non_fatal_err_emission_amended (T : Type) (e : AnyErr) (caller : Location) :
    ∃ entry : LogRecord,
      non_fatal caller (Except.error e : RResult T) = [OutEvent.logged entry] ∧
      strContains entry.message "a non-fatal error occured" := by
  refine ⟨⟨.Error, debugRender (context "a non-fatal error occured" e),
    caller.file, caller.line, none⟩, rfl, ?_⟩
  show strContains (debugRender (context "a non-fatal error occured" e))
    "a non-fatal error occured"
  rw [debugRender_context]
  exact strContains_appendRight _ (strContains_appendRight _ (strContains_self _))

/-- Counterexample to claim C8 as stated: the context annotation and the cause
are rendered on separate lines of the diagnostic (debug rendering), so no line
ends in `a non-fatal error occured: disk full`. -/
theorem non_fatal_disk_full_line_cex :
    non_fatal ⟨"main.rs", 10⟩ (Except.error ⟨"disk full", []⟩ : RResult Nat) =
      [OutEvent.logged ⟨LogLevel.Error,
        "a non-fatal error occured\n\nCaused by:\n    disk full", "main.rs", 10, none⟩] ∧
    ¬ lineEndsIn "a non-fatal error occured\n\nCaused by:\n    disk full"
        "a non-fatal error occured: disk full" :=
  ⟨by decide, by decide⟩

/-- Claim C8 (amended): `non_fatal(Err("disk full"))` continues (returns its
emission trace) and the emitted diagnostic shows a line reading exactly
`a non-fatal error occured` and a line ending in `disk full` (the annotation
and the cause are on separate lines, not joined by a colon). -/
theorem non_fatal_disk_full_amended :
    non_fatal ⟨"main.rs", 10⟩ (Except.error ⟨"disk full", []⟩ : RResult Nat) =
      [OutEvent.logged ⟨LogLevel.Error,
        "a non-fatal error occured\n\nCaused by:\n    disk full", "main.rs", 10, none⟩] ∧
    (∃ ln ∈ splitNlStr "a non-fatal error occured\n\nCaused by:\n    disk full",
        ln = "a non-fatal error occured") ∧
    lineEndsIn "a non-fatal error occured\n\nCaused by:\n    disk full" "disk full" :=
  ⟨by decide, by decide, by decide⟩

/-- Counterexample to claim C4 as stated: the source formats the `PoisonError`
wrapper itself (`{e:#?}`), whose `Debug` implementation never shows the inner
value, so for the poisoned value `42` the produced message is not
`"cannot acquire poisoned lock for " ++ debug(42)`. -/
theorem to_anyhow_claimed_message_cex :
    to_anyhow (Except.error ⟨(42 : Nat)⟩) =
      (Except.error
        ⟨"cannot acquire poisoned lock for PoisonError \x7b .. \x7d", []⟩ : RResult Nat) ∧
    "cannot acquire poisoned lock for PoisonError \x7b .. \x7d" ≠
      "cannot acquire poisoned lock for " ++ toString (42 : Nat) :=
  ⟨rfl, by decide⟩

/-- Claim C4 (amended): `to_anyhow` returns a success unchanged; a poisoning
failure maps to a failure whose message is `cannot acquire poisoned lock for `
followed by the alternate debug rendering of the `PoisonError` wrapper itself —
the fixed single-line text `PoisonError { .. }`, which does not reveal the
poisoned inner value. -/
theorem to_anyhow_poison_amended (U : Type) (u : U) (pe : PoisonError U) :
    to_anyhow (Except.ok u) = (Except.ok u : RResult U) ∧
    to_anyhow (Except.error pe) =
      (Except.error
        ⟨"cannot acquire poisoned lock for " ++ poisonErrorDebugAlt pe, []⟩ : RResult U) ∧
    poisonErrorDebugAlt pe = "PoisonError \x7b .. \x7d" :=
  ⟨rfl, rfl, rfl⟩
